import Mathlib

/-!
Verification of the 2D drawing program's interaction core.

Shallow embedding of `src/test project/test project/Source.cpp`:
the shape data model (`Line`, `Rectangle`, `Circle`), the canvas state
(`shapes`, `undoStack`), the button layer (`Button::isClicked` over SFML
`FloatRect::contains`), and the event-handling loop body
(`GraphicsApp::handleEvents`).

Coordinates: mouse positions are `sf::Vector2i` (exact integers); every
`sf::Vector2f` the program stores is obtained from integer mouse
coordinates, so points are modelled as integer pairs.  The only
non-exact quantity is the circle radius, computed by
`std::sqrt(std::pow(dx,2) + std::pow(dy,2))`; it is modelled as the real
square root of the (exact) integer squared distance.
-/

namespace Drawing

/-- Integer-coordinate 2D point (`sf::Vector2i`; the stored
`sf::Vector2f` values are exact images of such points). -/
structure Vec2 where
  x : Int
  y : Int
deriving DecidableEq, Repr

instance : Sub Vec2 := ⟨fun a b => ⟨a.x - b.x, a.y - b.y⟩⟩

@[simp] theorem Vec2.sub_x (a b : Vec2) : (a - b).x = a.x - b.x := rfl

@[simp] theorem Vec2.sub_y (a b : Vec2) : (a - b).y = a.y - b.y := rfl

/-- RGBA color (`sf::Color`). -/
structure Color where
  r : Nat
  g : Nat
  b : Nat
  a : Nat
deriving DecidableEq, Repr

/-- Constant `sf::Color::White`. -/
def Color.white : Color := ⟨255, 255, 255, 255⟩

/-- Radius computed on the second click of a circle placement:
`std::sqrt(std::pow(endPos.x - startPos.x, 2) + std::pow(endPos.y - startPos.y, 2))`. -/
noncomputable def circleRadius (startPos endPos : Vec2) : ℝ :=
  Real.sqrt (((endPos.x - startPos.x : ℤ) : ℝ) ^ 2 + ((endPos.y - startPos.y : ℤ) : ℝ) ^ 2)

/-- Committed shapes (class `Shape` and its three subclasses).  Each
variant stores exactly the geometry its constructor stores. -/
inductive Shape where
  | line (start endP : Vec2) (color : Color)
  | rect (position size : Vec2) (color : Color)
  | circle (position : Vec2) (radius : ℝ) (color : Color)

/-- SFML `sf::FloatRect` as produced by `getGlobalBounds()` of a button's
background rectangle (no outline, no transform: left/top = position,
width/height = size; all integers here). -/
structure FloatRect where
  left : Int
  top : Int
  width : Int
  height : Int
deriving DecidableEq, Repr

/-- Containment test `sf::Rect<T>::contains`: inclusive on the min edge, strict on the max
edge, with min/max taken over the two corners. -/
def FloatRect.contains (r : FloatRect) (p : Vec2) : Bool :=
  let minX := min r.left (r.left + r.width)
  let maxX := max r.left (r.left + r.width)
  let minY := min r.top (r.top + r.height)
  let maxY := max r.top (r.top + r.height)
  decide (minX ≤ p.x) && decide (p.x < maxX) && decide (minY ≤ p.y) && decide (p.y < maxY)

/-- A GUI button: only its hit region matters to the interaction logic. -/
structure Button where
  bounds : FloatRect
deriving DecidableEq, Repr

/-- Hit test `Button::isClicked`: `buttonShape.getGlobalBounds().contains(mousePos)`. -/
def Button.isClicked (b : Button) (mousePos : Vec2) : Bool :=
  b.bounds.contains mousePos

/-- Constructor call `lineButton({10,10},{100,50})`. -/
def lineButton : Button := ⟨⟨10, 10, 100, 50⟩⟩

/-- Constructor call `rectButton({120,10},{100,50})`. -/
def rectButton : Button := ⟨⟨120, 10, 100, 50⟩⟩

/-- Constructor call `circleButton({230,10},{100,50})`. -/
def circleButton : Button := ⟨⟨230, 10, 100, 50⟩⟩

/-- Constructor call `clearButton({340,10},{100,50})`. -/
def clearButton : Button := ⟨⟨340, 10, 100, 50⟩⟩

/-- Constructor call `saveButton({450,10},{100,50})`. -/
def saveButton : Button := ⟨⟨450, 10, 100, 50⟩⟩

/-- Constructor call `undoButton({560,10},{100,50})`. -/
def undoButton : Button := ⟨⟨560, 10, 100, 50⟩⟩

/-- Tool enumeration `enum class ShapeType` with values None, Line, Rectangle, Circle. -/
inductive ShapeType where
  | none
  | line
  | rectangle
  | circle
deriving DecidableEq, Repr

/-- The mutable fields of `GraphicsApp` that the event loop touches. -/
structure AppState where
  shapes : List Shape
  undoStack : List Shape
  currentColor : Color
  currentShapeType : ShapeType
  isDrawing : Bool
  startPos : Vec2

/-- State at construction time: empty canvas and undo stack, color White,
`currentShapeType(ShapeType::None)`, `isDrawing = false`, `startPos`
value-initialized to `(0,0)`. -/
def initialState : AppState :=
  { shapes := []
    undoStack := []
    currentColor := Color.white
    currentShapeType := ShapeType.none
    isDrawing := false
    startPos := ⟨0, 0⟩ }

/-- The clear-button branch and the C-key branch:
`shapes.clear(); undoStack.clear();`. -/
def clearOp (s : AppState) : AppState :=
  { s with shapes := [], undoStack := [] }

/-- The undo-button branch:
`if (!shapes.empty()) { undoStack.push_back(shapes.back()); shapes.pop_back(); }`. -/
def undoOp (s : AppState) : AppState :=
  match s.shapes.getLast? with
  | some x => { s with undoStack := s.undoStack ++ [x], shapes := s.shapes.dropLast }
  | none => s

/-- The shape constructed and pushed on the second click, given the
selected tool, `startPos` and `endPos` (lines 190–200 of the source).
For `ShapeType.none` no shape is pushed, encoded as `Option`. -/
noncomputable def commitShape (t : ShapeType) (startPos endPos : Vec2) (c : Color) :
    Option Shape :=
  match t with
  | ShapeType.line => some (Shape.line startPos endPos c)
  | ShapeType.rectangle => some (Shape.rect startPos (endPos - startPos) c)
  | ShapeType.circle => some (Shape.circle startPos (circleRadius startPos endPos) c)
  | ShapeType.none => none

/-- The `sf::Event::MouseButtonPressed` block of `GraphicsApp::handleEvents`.
`eventPos` is `(event.mouseButton.x, event.mouseButton.y)` stored in the
event; `mousePos` is `sf::Mouse::getPosition(window)`, the live cursor
position queried at handling time. -/
noncomputable def handleMousePressed (s : AppState) (eventPos mousePos : Vec2) : AppState :=
  if s.isDrawing = false then
    if lineButton.isClicked mousePos then
      { s with currentShapeType := ShapeType.line }
    else if rectButton.isClicked mousePos then
      { s with currentShapeType := ShapeType.rectangle }
    else if circleButton.isClicked mousePos then
      { s with currentShapeType := ShapeType.circle }
    else if clearButton.isClicked mousePos then
      clearOp s
    else if undoButton.isClicked mousePos then
      undoOp s
    else if saveButton.isClicked mousePos then
      s
    else if s.currentShapeType ≠ ShapeType.none then
      { s with startPos := mousePos, isDrawing := true }
    else
      s
  else
    let endPos := eventPos
    let s' :=
      match commitShape s.currentShapeType s.startPos endPos s.currentColor with
      | some sh => { s with shapes := s.shapes ++ [sh] }
      | none => s
    { s' with currentShapeType := ShapeType.none, isDrawing := false }

/-- One polled event, as seen by one iteration of the
`while (window.pollEvent(event))` loop. -/
inductive InputEvent where
  | mousePressed (eventPos mousePos : Vec2)
  | other

/-- An event together with the result of the per-iteration
`sf::Keyboard::isKeyPressed(sf::Keyboard::C)` query. -/
structure PolledEvent where
  input : InputEvent
  cKeyHeld : Bool

/-- One iteration of the event loop body: handle a mouse press if the
event is one, then (unconditionally, for every event type) apply the
C-key clear when the key is held. -/
noncomputable def processEvent (s : AppState) (e : PolledEvent) : AppState :=
  let s1 :=
    match e.input with
    | InputEvent.mousePressed eventPos mousePos => handleMousePressed s eventPos mousePos
    | InputEvent.other => s
  if e.cKeyHeld then clearOp s1 else s1

/-- Process a finite stream of polled events. -/
noncomputable def processEvents (s : AppState) (es : List PolledEvent) : AppState :=
  es.foldl processEvent s

/-- A click whose queried cursor position coincides with the event's
stored coordinates (the ordinary case), with the C key not held. -/
def clickAt (p : Vec2) : PolledEvent :=
  ⟨InputEvent.mousePressed p p, false⟩

/-- Whether a point hits any of the three tool buttons. -/
def toolButtonHit (p : Vec2) : Bool :=
  lineButton.isClicked p || rectButton.isClicked p || circleButton.isClicked p

/-- Whether a point hits any of the six buttons. -/
def anyButtonHit (p : Vec2) : Bool :=
  toolButtonHit p || clearButton.isClicked p || undoButton.isClicked p
    || saveButton.isClicked p

/-- Tag of a committed shape, for relating it to the tool that produced it. -/
def Shape.typeOf : Shape → ShapeType
  | Shape.line _ _ _ => ShapeType.line
  | Shape.rect _ _ _ => ShapeType.rectangle
  | Shape.circle _ _ _ => ShapeType.circle

/-! ## Helper lemmas -/

@[simp] theorem clearOp_shapes (s : AppState) : (clearOp s).shapes = [] := rfl

@[simp] theorem clearOp_undoStack (s : AppState) : (clearOp s).undoStack = [] := rfl

@[simp] theorem clearOp_currentShapeType (s : AppState) :
    (clearOp s).currentShapeType = s.currentShapeType := rfl

@[simp] theorem clearOp_isDrawing (s : AppState) : (clearOp s).isDrawing = s.isDrawing := rfl

@[simp] theorem clearOp_startPos (s : AppState) : (clearOp s).startPos = s.startPos := rfl

@[simp] theorem clearOp_currentColor (s : AppState) :
    (clearOp s).currentColor = s.currentColor := rfl

@[simp] theorem undoOp_currentShapeType (s : AppState) :
    (undoOp s).currentShapeType = s.currentShapeType := by
  unfold undoOp; cases s.shapes.getLast? <;> rfl

@[simp] theorem undoOp_isDrawing (s : AppState) : (undoOp s).isDrawing = s.isDrawing := by
  unfold undoOp; cases s.shapes.getLast? <;> rfl

@[simp] theorem undoOp_startPos (s : AppState) : (undoOp s).startPos = s.startPos := by
  unfold undoOp; cases s.shapes.getLast? <;> rfl

@[simp] theorem undoOp_currentColor (s : AppState) :
    (undoOp s).currentColor = s.currentColor := by
  unfold undoOp; cases s.shapes.getLast? <;> rfl

theorem anyButtonHit_eq_false (p : Vec2) (h : anyButtonHit p = false) :
    lineButton.isClicked p = false ∧ rectButton.isClicked p = false ∧
    circleButton.isClicked p = false ∧ clearButton.isClicked p = false ∧
    undoButton.isClicked p = false ∧ saveButton.isClicked p = false := by
  simp only [anyButtonHit, toolButtonHit, Bool.or_eq_false_iff] at h
  tauto

theorem toolButtonHit_eq_false (p : Vec2) (h : toolButtonHit p = false) :
    lineButton.isClicked p = false ∧ rectButton.isClicked p = false ∧
    circleButton.isClicked p = false := by
  simp only [toolButtonHit, Bool.or_eq_false_iff] at h
  tauto

theorem processEvent_clickAt (s : AppState) (p : Vec2) :
    processEvent s (clickAt p) = handleMousePressed s p p := by
  simp [processEvent, clickAt]

theorem processEvent_mouse (s : AppState) (e mp : Vec2) :
    processEvent s ⟨InputEvent.mousePressed e mp, false⟩ = handleMousePressed s e mp := by
  simp [processEvent]

/-- In the drawing phase the click handler commits the pending shape and
resets tool selection and drawing flag, touching nothing else. -/
theorem handleMousePressed_of_isDrawing (s : AppState) (e p : Vec2)
    (h : s.isDrawing = true) :
    handleMousePressed s e p =
      { s with
        shapes := s.shapes ++ (commitShape s.currentShapeType s.startPos e s.currentColor).toList,
        currentShapeType := ShapeType.none,
        isDrawing := false } := by
  rw [handleMousePressed, if_neg (by simp [h])]
  cases hc : commitShape s.currentShapeType s.startPos e s.currentColor <;> simp [hc]

/-- Outside the drawing phase, a click that hits no button while a tool is
selected records the queried mouse position as the pending start. -/
theorem handleMousePressed_start (s : AppState) (e p : Vec2)
    (h1 : s.isDrawing = false) (h2 : anyButtonHit p = false)
    (h3 : s.currentShapeType ≠ ShapeType.none) :
    handleMousePressed s e p = { s with startPos := p, isDrawing := true } := by
  obtain ⟨hl, hr, hc, hcl, hu, hs⟩ := anyButtonHit_eq_false p h2
  rw [handleMousePressed, if_pos h1, if_neg (by simp [hl]), if_neg (by simp [hr]),
    if_neg (by simp [hc]), if_neg (by simp [hcl]), if_neg (by simp [hu]),
    if_neg (by simp [hs]), if_pos h3]

/-- Outside the drawing phase, a click missing all three tool buttons never
changes the current tool selection. -/
theorem handleMousePressed_preserves_tool (s : AppState) (e p : Vec2)
    (h1 : s.isDrawing = false) (h2 : toolButtonHit p = false) :
    (handleMousePressed s e p).currentShapeType = s.currentShapeType := by
  obtain ⟨hl, hr, hc⟩ := toolButtonHit_eq_false p h2
  rw [handleMousePressed, if_pos h1, if_neg (by simp [hl]), if_neg (by simp [hr]),
    if_neg (by simp [hc])]
  split
  · simp
  · split
    · simp
    · split
      · rfl
      · split
        · rfl
        · rfl

/-- With a tool selected, the committed shape exists and carries the tool's tag. -/
theorem commitShape_isSome (t : ShapeType) (p q : Vec2) (c : Color)
    (h : t ≠ ShapeType.none) :
    ∃ sh, commitShape t p q c = some sh ∧ Shape.typeOf sh = t := by
  cases t with
  | none => exact absurd rfl h
  | line => exact ⟨_, rfl, rfl⟩
  | rectangle => exact ⟨_, rfl, rfl⟩
  | circle => exact ⟨_, rfl, rfl⟩

/-- Undo (`undoOp`) on a non-empty canvas pops the last shape onto the undo stack. -/
theorem undoOp_concat (s : AppState) (xs : List Shape) (x : Shape)
    (h : s.shapes = xs ++ [x]) :
    undoOp s = { s with shapes := xs, undoStack := s.undoStack ++ [x] } := by
  unfold undoOp
  rw [h, List.getLast?_concat, List.dropLast_concat]

/-- Undo (`undoOp`) on an empty canvas is the identity. -/
theorem undoOp_nil (s : AppState) (h : s.shapes = []) : undoOp s = s := by
  unfold undoOp
  rw [h]
  rfl

/-! ## Claims -/

/-- Claim C1: from a state with a tool selected and no pending click, a click
hitting no button records its position as the pending start (tool and canvas
untouched), and the following click appends exactly one shape of the selected
tool type, with geometry derived from the two click points, after which the
tool selection is `none` and the drawing flag is cleared. -/
theorem two_click_placement_commits (s : AppState) (p q : Vec2)
    (h1 : s.isDrawing = false) (h2 : s.currentShapeType ≠ ShapeType.none)
    (h3 : anyButtonHit p = false) :
    (processEvent s (clickAt p)).isDrawing = true ∧
    (processEvent s (clickAt p)).startPos = p ∧
    (processEvent s (clickAt p)).currentShapeType = s.currentShapeType ∧
    (processEvent s (clickAt p)).shapes = s.shapes ∧
    ∃ sh, commitShape s.currentShapeType p q s.currentColor = some sh ∧
      Shape.typeOf sh = s.currentShapeType ∧
      (processEvent (processEvent s (clickAt p)) (clickAt q)).shapes = s.shapes ++ [sh] ∧
      (processEvent (processEvent s (clickAt p)) (clickAt q)).currentShapeType
        = ShapeType.none ∧
      (processEvent (processEvent s (clickAt p)) (clickAt q)).isDrawing = false ∧
      (processEvent (processEvent s (clickAt p)) (clickAt q)).undoStack = s.undoStack := by
  obtain ⟨sh, hsh, hty⟩ := commitShape_isSome s.currentShapeType p q s.currentColor h2
  have e1 : processEvent s (clickAt p) = { s with startPos := p, isDrawing := true } := by
    rw [processEvent_clickAt]
    exact handleMousePressed_start s p p h1 h3 h2
  have e2 : processEvent (processEvent s (clickAt p)) (clickAt q)
      = { s with
          shapes := s.shapes ++ [sh],
          startPos := p,
          currentShapeType := ShapeType.none,
          isDrawing := false } := by
    rw [processEvent_clickAt, e1,
      handleMousePressed_of_isDrawing _ q q rfl]
    simp [hsh]
  refine ⟨by rw [e1], by rw [e1], by rw [e1], by rw [e1], sh, hsh, hty, ?_, ?_, ?_, ?_⟩
  · rw [e2]
  · rw [e2]
  · rw [e2]
  · rw [e2]

/-- Concrete run of C1: select the Line tool, click (10,100) then (50,150). -/
theorem two_click_placement_commits_witness :
    (processEvent { initialState with currentShapeType := ShapeType.line }
        (clickAt ⟨10, 100⟩)).isDrawing = true ∧
    (processEvent { initialState with currentShapeType := ShapeType.line }
        (clickAt ⟨10, 100⟩)).startPos = ⟨10, 100⟩ ∧
    (processEvent { initialState with currentShapeType := ShapeType.line }
        (clickAt ⟨10, 100⟩)).currentShapeType = ShapeType.line ∧
    (processEvent { initialState with currentShapeType := ShapeType.line }
        (clickAt ⟨10, 100⟩)).shapes = [] ∧
    ∃ sh, commitShape ShapeType.line ⟨10, 100⟩ ⟨50, 150⟩ Color.white = some sh ∧
      Shape.typeOf sh = ShapeType.line ∧
      (processEvent (processEvent { initialState with currentShapeType := ShapeType.line }
          (clickAt ⟨10, 100⟩)) (clickAt ⟨50, 150⟩)).shapes = [] ++ [sh] ∧
      (processEvent (processEvent { initialState with currentShapeType := ShapeType.line }
          (clickAt ⟨10, 100⟩)) (clickAt ⟨50, 150⟩)).currentShapeType = ShapeType.none ∧
      (processEvent (processEvent { initialState with currentShapeType := ShapeType.line }
          (clickAt ⟨10, 100⟩)) (clickAt ⟨50, 150⟩)).isDrawing = false ∧
      (processEvent (processEvent { initialState with currentShapeType := ShapeType.line }
          (clickAt ⟨10, 100⟩)) (clickAt ⟨50, 150⟩)).undoStack = [] :=
  two_click_placement_commits { initialState with currentShapeType := ShapeType.line }
    ⟨10, 100⟩ ⟨50, 150⟩ rfl (by decide) (by decide)

/-- Claim C2: while a placement is in flight the very next click is consumed
as the endpoint with no button region tested: the result is the same whatever
the queried cursor position (in particular when it lies on a button), exactly
one shape of the selected tool type is appended with the click's event
coordinates as endpoint, the tool resets to `none`, and the undo stack is
untouched. -/
theorem placing_click_ignores_buttons (s : AppState) (q r r' : Vec2)
    (h1 : s.isDrawing = true) (h2 : s.currentShapeType ≠ ShapeType.none) :
    processEvent s ⟨InputEvent.mousePressed q r, false⟩
      = processEvent s ⟨InputEvent.mousePressed q r', false⟩ ∧
    ∃ sh, commitShape s.currentShapeType s.startPos q s.currentColor = some sh ∧
      Shape.typeOf sh = s.currentShapeType ∧
      (processEvent s ⟨InputEvent.mousePressed q r, false⟩).shapes = s.shapes ++ [sh] ∧
      (processEvent s ⟨InputEvent.mousePressed q r, false⟩).currentShapeType
        = ShapeType.none ∧
      (processEvent s ⟨InputEvent.mousePressed q r, false⟩).isDrawing = false ∧
      (processEvent s ⟨InputEvent.mousePressed q r, false⟩).undoStack = s.undoStack := by
  obtain ⟨sh, hsh, hty⟩ := commitShape_isSome s.currentShapeType s.startPos q s.currentColor h2
  have e : ∀ m : Vec2, processEvent s ⟨InputEvent.mousePressed q m, false⟩
      = { s with
          shapes := s.shapes ++ [sh],
          currentShapeType := ShapeType.none,
          isDrawing := false } := by
    intro m
    rw [processEvent_mouse, handleMousePressed_of_isDrawing _ q m h1]
    simp [hsh]
  refine ⟨by rw [e r, e r'], sh, hsh, hty, ?_, ?_, ?_, ?_⟩
  · rw [e r]
  · rw [e r]
  · rw [e r]
  · rw [e r]

/-- Concrete run of C2: mid-placement of a line from (100,100), a click whose
queried position (570,20) lies on the Undo button still commits the line. -/
theorem placing_click_ignores_buttons_witness :
    undoButton.isClicked ⟨570, 20⟩ = true ∧
    (processEvent
        { initialState with
          currentShapeType := ShapeType.line, isDrawing := true, startPos := ⟨100, 100⟩ }
        ⟨InputEvent.mousePressed ⟨300, 300⟩ ⟨570, 20⟩, false⟩
      = processEvent
        { initialState with
          currentShapeType := ShapeType.line, isDrawing := true, startPos := ⟨100, 100⟩ }
        ⟨InputEvent.mousePressed ⟨300, 300⟩ ⟨20, 20⟩, false⟩ ∧
    ∃ sh, commitShape ShapeType.line ⟨100, 100⟩ ⟨300, 300⟩ Color.white = some sh ∧
      Shape.typeOf sh = ShapeType.line ∧
      (processEvent
          { initialState with
            currentShapeType := ShapeType.line, isDrawing := true, startPos := ⟨100, 100⟩ }
          ⟨InputEvent.mousePressed ⟨300, 300⟩ ⟨570, 20⟩, false⟩).shapes = [] ++ [sh] ∧
      (processEvent
          { initialState with
            currentShapeType := ShapeType.line, isDrawing := true, startPos := ⟨100, 100⟩ }
          ⟨InputEvent.mousePressed ⟨300, 300⟩ ⟨570, 20⟩, false⟩).currentShapeType
        = ShapeType.none ∧
      (processEvent
          { initialState with
            currentShapeType := ShapeType.line, isDrawing := true, startPos := ⟨100, 100⟩ }
          ⟨InputEvent.mousePressed ⟨300, 300⟩ ⟨570, 20⟩, false⟩).isDrawing = false ∧
      (processEvent
          { initialState with
            currentShapeType := ShapeType.line, isDrawing := true, startPos := ⟨100, 100⟩ }
          ⟨InputEvent.mousePressed ⟨300, 300⟩ ⟨570, 20⟩, false⟩).undoStack = []) :=
  ⟨rfl,
    placing_click_ignores_buttons
      { initialState with
        currentShapeType := ShapeType.line, isDrawing := true, startPos := ⟨100, 100⟩ }
      ⟨300, 300⟩ ⟨570, 20⟩ ⟨20, 20⟩ rfl (by decide)⟩

/-- Claim C3: undo pops exactly the last shape onto the undo stack, is a
no-op on an empty canvas, and from two committed shapes two undos empty the
canvas and leave the undo stack holding both shapes in removal order. -/
theorem undo_semantics (s : AppState) :
    (∀ xs x, s.shapes = xs ++ [x] →
      undoOp s = { s with shapes := xs, undoStack := s.undoStack ++ [x] }) ∧
    (s.shapes = [] → undoOp s = s) ∧
    (∀ a b, s.shapes = [a, b] →
      (undoOp (undoOp s)).shapes = [] ∧
      (undoOp (undoOp s)).undoStack = s.undoStack ++ [b, a]) := by
  refine ⟨fun xs x h => undoOp_concat s xs x h, fun h => undoOp_nil s h, fun a b h => ?_⟩
  have e1 : undoOp s = { s with shapes := [a], undoStack := s.undoStack ++ [b] } :=
    undoOp_concat s [a] b (by rw [h]; rfl)
  have e2 : undoOp (undoOp s)
      = { s with shapes := [], undoStack := (s.undoStack ++ [b]) ++ [a] } := by
    rw [e1, undoOp_concat _ [] a rfl]
  rw [e2]
  exact ⟨rfl, by simp⟩

/-- Concrete run of C3: two line shapes, two undos. -/
theorem undo_semantics_witness :
    (undoOp (undoOp
        { initialState with
          shapes := [Shape.line ⟨0, 0⟩ ⟨1, 1⟩ Color.white,
                     Shape.line ⟨2, 2⟩ ⟨3, 3⟩ Color.white] })).shapes = [] ∧
    (undoOp (undoOp
        { initialState with
          shapes := [Shape.line ⟨0, 0⟩ ⟨1, 1⟩ Color.white,
                     Shape.line ⟨2, 2⟩ ⟨3, 3⟩ Color.white] })).undoStack
      = [Shape.line ⟨2, 2⟩ ⟨3, 3⟩ Color.white, Shape.line ⟨0, 0⟩ ⟨1, 1⟩ Color.white] :=
  (undo_semantics
      { initialState with
        shapes := [Shape.line ⟨0, 0⟩ ⟨1, 1⟩ Color.white,
                   Shape.line ⟨2, 2⟩ ⟨3, 3⟩ Color.white] }).2.2
    (Shape.line ⟨0, 0⟩ ⟨1, 1⟩ Color.white) (Shape.line ⟨2, 2⟩ ⟨3, 3⟩ Color.white) rfl

/-- Claim C4: the Clear button's operation empties both the canvas sequence
and the undo stack in every state, and doing so right after an undo also
yields an empty canvas and an empty undo stack. -/
theorem clear_semantics (s : AppState) :
    (clearOp s).shapes = [] ∧ (clearOp s).undoStack = [] ∧
    (clearOp (undoOp s)).shapes = [] ∧ (clearOp (undoOp s)).undoStack = [] :=
  ⟨rfl, rfl, rfl, rfl⟩

/-- A mid-placement state for concrete runs: Line tool selected, pending
start recorded at (100,100), one shape already committed. -/
def placingLineState : AppState :=
  { initialState with
    currentShapeType := ShapeType.line
    isDrawing := true
    startPos := ⟨100, 100⟩
    shapes := [Shape.line ⟨0, 0⟩ ⟨1, 1⟩ Color.white] }

/-- Claim C5, counterexample: the C-key trigger fired mid-placement clears
the canvas and the undo stack but the pending click is still present
afterwards (`isDrawing` stays `true` and the recorded start survives) — it
is not discarded as the claim states. -/
theorem clearKey_keeps_pending_counterexample :
    placingLineState.isDrawing = true ∧
    (processEvent placingLineState ⟨InputEvent.other, true⟩).shapes = [] ∧
    (processEvent placingLineState ⟨InputEvent.other, true⟩).undoStack = [] ∧
    (processEvent placingLineState ⟨InputEvent.other, true⟩).isDrawing = true ∧
    (processEvent placingLineState ⟨InputEvent.other, true⟩).startPos = ⟨100, 100⟩ ∧
    (processEvent placingLineState ⟨InputEvent.other, true⟩).currentShapeType
      = ShapeType.line :=
  ⟨rfl, rfl, rfl, rfl, rfl, rfl⟩

/-- Claim C5, amended: the C-key trigger empties the canvas and the undo
stack regardless of the interaction state; it modifies no other field, and
when it fires mid-placement the pending click remains present and the tool
selection is left untouched (not reset to `none`). -/
theorem clearKey_semantics (s : AppState) (e : InputEvent) :
    (processEvent s ⟨e, true⟩).shapes = [] ∧
    (processEvent s ⟨e, true⟩).undoStack = [] ∧
    (clearOp s).currentShapeType = s.currentShapeType ∧
    (clearOp s).isDrawing = s.isDrawing ∧
    (clearOp s).startPos = s.startPos ∧
    (clearOp s).currentColor = s.currentColor ∧
    (s.isDrawing = true →
      (processEvent s ⟨InputEvent.other, true⟩).isDrawing = true ∧
      (processEvent s ⟨InputEvent.other, true⟩).currentShapeType = s.currentShapeType ∧
      (processEvent s ⟨InputEvent.other, true⟩).startPos = s.startPos) := by
  refine ⟨rfl, rfl, rfl, rfl, rfl, rfl, fun h => ⟨?_, rfl, rfl⟩⟩
  show s.isDrawing = true
  exact h

/-- Concrete run of C5 (amended): the trigger fired mid-placement. -/
theorem clearKey_semantics_witness :
    (processEvent placingLineState ⟨InputEvent.other, true⟩).shapes = [] ∧
    (processEvent placingLineState ⟨InputEvent.other, true⟩).undoStack = [] ∧
    ((processEvent placingLineState ⟨InputEvent.other, true⟩).isDrawing = true ∧
      (processEvent placingLineState ⟨InputEvent.other, true⟩).currentShapeType
        = ShapeType.line ∧
      (processEvent placingLineState ⟨InputEvent.other, true⟩).startPos = ⟨100, 100⟩) :=
  ⟨(clearKey_semantics placingLineState InputEvent.other).1,
   (clearKey_semantics placingLineState InputEvent.other).2.1,
   (clearKey_semantics placingLineState InputEvent.other).2.2.2.2.2.2 rfl⟩

/-- Tracking bit for C6: `true` iff a tool button was pressed since the last
shape commit (set on a tool-button hit outside the drawing phase, cleared by
the click that completes a placement, otherwise carried along). -/
def nextToolFlag (s : AppState) (f : Bool) (e : PolledEvent) : Bool :=
  match e.input with
  | InputEvent.mousePressed _ mp =>
      if s.isDrawing then false
      else if toolButtonHit mp then true
      else f
  | InputEvent.other => f

/-- One event-loop iteration paired with the C6 tracking bit. -/
noncomputable def stepWithFlag (p : AppState × Bool) (e : PolledEvent) : AppState × Bool :=
  (processEvent p.1 e, nextToolFlag p.1 p.2 e)

theorem processEvent_other_isDrawing (s : AppState) (c : Bool) :
    (processEvent s ⟨InputEvent.other, c⟩).isDrawing = s.isDrawing := by
  cases c <;> rfl

theorem processEvent_other_currentShapeType (s : AppState) (c : Bool) :
    (processEvent s ⟨InputEvent.other, c⟩).currentShapeType = s.currentShapeType := by
  cases c <;> rfl

/-- One step preserves the C6 invariant: whenever the pending click is
absent and a tool is selected, the tracking bit is set. -/
theorem nextToolFlag_invariant (s : AppState) (f : Bool) (e : PolledEvent)
    (h : s.isDrawing = false → s.currentShapeType ≠ ShapeType.none → f = true) :
    (processEvent s e).isDrawing = false →
    (processEvent s e).currentShapeType ≠ ShapeType.none →
    nextToolFlag s f e = true := by
  intro hid hty
  obtain ⟨input, c⟩ := e
  cases input with
  | other =>
    rw [processEvent_other_isDrawing] at hid
    rw [processEvent_other_currentShapeType] at hty
    exact h hid hty
  | mousePressed ep mp =>
    by_cases hd : s.isDrawing = true
    · exfalso
      apply hty
      show (processEvent s ⟨InputEvent.mousePressed ep mp, c⟩).currentShapeType
        = ShapeType.none
      simp only [processEvent]
      rw [handleMousePressed_of_isDrawing s ep mp hd]
      cases c <;> rfl
    · have hdf : s.isDrawing = false := by
        cases hb : s.isDrawing
        · rfl
        · exact absurd hb hd
      by_cases htb : toolButtonHit mp = true
      · simp [nextToolFlag, hdf, htb]
      · have htbf : toolButtonHit mp = false := by
          cases hb : toolButtonHit mp
          · rfl
          · exact absurd hb htb
        have hty' : s.currentShapeType ≠ ShapeType.none := by
          have hpres :
              (processEvent s ⟨InputEvent.mousePressed ep mp, c⟩).currentShapeType
                = s.currentShapeType := by
            simp only [processEvent]
            have hh := handleMousePressed_preserves_tool s ep mp hdf htbf
            cases c <;> simpa using hh
          rw [hpres] at hty
          exact hty
        simp [nextToolFlag, hdf, htbf, h hdf hty']

/-- The C6 invariant holds along any fold of the event loop. -/
theorem stepWithFlag_foldl_invariant (es : List PolledEvent) (s : AppState) (f : Bool)
    (h : s.isDrawing = false → s.currentShapeType ≠ ShapeType.none → f = true) :
    (es.foldl stepWithFlag (s, f)).1.isDrawing = false →
    (es.foldl stepWithFlag (s, f)).1.currentShapeType ≠ ShapeType.none →
    (es.foldl stepWithFlag (s, f)).2 = true := by
  induction es generalizing s f with
  | nil => exact h
  | cons e es ih =>
    simp only [List.foldl, stepWithFlag]
    exact ih (processEvent s e) (nextToolFlag s f e) (nextToolFlag_invariant s f e h)

/-- Claim C6, counterexample: after selecting the Line tool and then clicking
the Undo button, the pending click is absent, the most recent click hit no
tool button (it hit the Undo button), and yet the tool selection is `line`,
not `none` — refuting the stated invariant's "except immediately after a tool
button press". -/
theorem tool_none_invariant_counterexample :
    (processEvents initialState [clickAt ⟨20, 20⟩, clickAt ⟨570, 20⟩]).isDrawing = false ∧
    (processEvents initialState [clickAt ⟨20, 20⟩, clickAt ⟨570, 20⟩]).currentShapeType
      = ShapeType.line ∧
    ShapeType.line ≠ ShapeType.none ∧
    toolButtonHit ⟨570, 20⟩ = false ∧
    undoButton.isClicked ⟨570, 20⟩ = true :=
  ⟨rfl, rfl, by decide, rfl, rfl⟩

/-- Claim C6, amended: in every state reachable from the initial state, the
tool selection is `none` whenever the pending click is absent, except when a
tool button press has occurred since the last shape commit (not merely
immediately after a tool button press); and each commit click resets the
tool selection to `none`. -/
theorem tool_selected_iff_pressed_since_commit (es : List PolledEvent)
    (s : AppState) (q r : Vec2) (c : Bool) :
    ((es.foldl stepWithFlag (initialState, false)).1.isDrawing = false →
      (es.foldl stepWithFlag (initialState, false)).1.currentShapeType ≠ ShapeType.none →
      (es.foldl stepWithFlag (initialState, false)).2 = true) ∧
    (s.isDrawing = true →
      (processEvent s ⟨InputEvent.mousePressed q r, c⟩).currentShapeType
        = ShapeType.none) := by
  constructor
  · exact stepWithFlag_foldl_invariant es initialState false (fun _ hne => absurd rfl hne)
  · intro h
    simp only [processEvent]
    rw [handleMousePressed_of_isDrawing s q r h]
    cases c <;> rfl

/-- Concrete run of C6 (amended): select Line then click Undo — the tracking
bit is set; and a commit click from a placing state resets the tool. -/
theorem tool_selected_iff_pressed_since_commit_witness :
    (([clickAt ⟨20, 20⟩, clickAt ⟨570, 20⟩] : List PolledEvent).foldl stepWithFlag
        (initialState, false)).2 = true ∧
    (processEvent placingLineState
        ⟨InputEvent.mousePressed ⟨300, 300⟩ ⟨20, 20⟩, false⟩).currentShapeType
      = ShapeType.none :=
  ⟨(tool_selected_iff_pressed_since_commit [clickAt ⟨20, 20⟩, clickAt ⟨570, 20⟩]
      placingLineState ⟨300, 300⟩ ⟨20, 20⟩ false).1 rfl (by decide),
   (tool_selected_iff_pressed_since_commit [clickAt ⟨20, 20⟩, clickAt ⟨570, 20⟩]
      placingLineState ⟨300, 300⟩ ⟨20, 20⟩ false).2 rfl⟩

/-- Claim C7, counterexample: the scenario's click points (10,10) and (50,50)
both lie inside the Line button's hit region, so after selecting the Line
tool (click at (20,20) on the Line button) and clicking (10,10) then (50,50),
the canvas is still empty and the tool selection is still `line` — not one
Line shape with the tool reset to `none` as claimed. -/
theorem line_scenario_counterexample :
    lineButton.isClicked ⟨20, 20⟩ = true ∧
    lineButton.isClicked ⟨10, 10⟩ = true ∧
    lineButton.isClicked ⟨50, 50⟩ = true ∧
    (processEvents initialState
        [clickAt ⟨20, 20⟩, clickAt ⟨10, 10⟩, clickAt ⟨50, 50⟩]).shapes = [] ∧
    (processEvents initialState
        [clickAt ⟨20, 20⟩, clickAt ⟨10, 10⟩, clickAt ⟨50, 50⟩]).currentShapeType
      = ShapeType.line :=
  ⟨rfl, rfl, rfl, rfl, rfl⟩

/-- Claim C7, amended: starting from the initial state, selecting the Line
tool and then clicking two points that hit no button region (the scenario's
(10,10) and (50,50) lie inside the Line button, so e.g. (10,100) and
(50,150)) leaves the canvas containing exactly one Line from the first point
to the second, with the tool selection reset to `none` — each non-placing
click being tested against the buttons in fixed priority order with first
match winning. -/
theorem line_scenario_outside_buttons (p q : Vec2) (hp : anyButtonHit p = false) :
    (processEvents initialState [clickAt ⟨20, 20⟩, clickAt p, clickAt q]).shapes
      = [Shape.line p q Color.white] ∧
    (processEvents initialState [clickAt ⟨20, 20⟩, clickAt p, clickAt q]).currentShapeType
      = ShapeType.none ∧
    (processEvents initialState [clickAt ⟨20, 20⟩, clickAt p, clickAt q]).isDrawing
      = false := by
  have e0 : processEvent initialState (clickAt ⟨20, 20⟩)
      = { initialState with currentShapeType := ShapeType.line } := rfl
  have e1 : processEvent { initialState with currentShapeType := ShapeType.line }
        (clickAt p)
      = { initialState with
          currentShapeType := ShapeType.line, startPos := p, isDrawing := true } := by
    rw [processEvent_clickAt]
    exact handleMousePressed_start _ p p rfl hp (by decide)
  simp only [processEvents, List.foldl]
  rw [e0, e1, processEvent_clickAt, handleMousePressed_of_isDrawing _ q q rfl]
  exact ⟨rfl, rfl, rfl⟩

/-- Concrete run of C7 (amended): clicks at (10,100) and (50,150). -/
theorem line_scenario_outside_buttons_witness :
    (processEvents initialState
        [clickAt ⟨20, 20⟩, clickAt ⟨10, 100⟩, clickAt ⟨50, 150⟩]).shapes
      = [Shape.line ⟨10, 100⟩ ⟨50, 150⟩ Color.white] ∧
    (processEvents initialState
        [clickAt ⟨20, 20⟩, clickAt ⟨10, 100⟩, clickAt ⟨50, 150⟩]).currentShapeType
      = ShapeType.none ∧
    (processEvents initialState
        [clickAt ⟨20, 20⟩, clickAt ⟨10, 100⟩, clickAt ⟨50, 150⟩]).isDrawing = false :=
  line_scenario_outside_buttons ⟨10, 100⟩ ⟨50, 150⟩ (by decide)

/-- Embedding of an integer screen point into the Euclidean plane. -/
noncomputable def toPlane (v : Vec2) : EuclideanSpace ℝ (Fin 2) :=
  ![(v.x : ℝ), (v.y : ℝ)]

/-- The stored circle radius is the Euclidean distance between the two
click points. -/
theorem circleRadius_eq_dist (a b : Vec2) :
    circleRadius a b = dist (toPlane a) (toPlane b) := by
  rw [circleRadius, EuclideanSpace.dist_eq, Fin.sum_univ_two]
  simp only [toPlane, Matrix.cons_val_zero, Matrix.cons_val_one, Matrix.head_cons,
    Real.dist_eq, sq_abs]
  congr 1
  push_cast
  ring

/-- Radius of the 3-4-5 example. -/
theorem circleRadius_three_four : circleRadius ⟨0, 0⟩ ⟨3, 4⟩ = 5 := by
  have h : circleRadius ⟨0, 0⟩ ⟨3, 4⟩ = Real.sqrt 25 := by
    rw [circleRadius]
    norm_num
  rw [h, show (25 : ℝ) = 5 ^ 2 by norm_num]
  exact Real.sqrt_sq (by norm_num)

/-- A mid-placement state with the Circle tool and pending start (0,0). -/
def placingCircleState : AppState :=
  { initialState with
    currentShapeType := ShapeType.circle
    isDrawing := true
    startPos := ⟨0, 0⟩ }

/-- Claim C8: completing a Circle placement appends a circle whose stored
radius is `circleRadius` of the pending start and the endpoint; that radius
equals the Euclidean distance between the two points and is non-negative,
and for start (0,0), end (3,4) it is exactly 5. -/
theorem circle_radius_euclidean (s : AppState) (q r : Vec2)
    (h1 : s.isDrawing = true) (h2 : s.currentShapeType = ShapeType.circle) :
    (processEvent s ⟨InputEvent.mousePressed q r, false⟩).shapes
      = s.shapes ++ [Shape.circle s.startPos (circleRadius s.startPos q) s.currentColor] ∧
    circleRadius s.startPos q = dist (toPlane s.startPos) (toPlane q) ∧
    0 ≤ circleRadius s.startPos q ∧
    circleRadius ⟨0, 0⟩ ⟨3, 4⟩ = 5 := by
  refine ⟨?_, circleRadius_eq_dist s.startPos q, Real.sqrt_nonneg _,
    circleRadius_three_four⟩
  rw [processEvent_mouse, handleMousePressed_of_isDrawing _ q r h1]
  show s.shapes ++ (commitShape s.currentShapeType s.startPos q s.currentColor).toList = _
  rw [h2]
  rfl

/-- Concrete run of C8: circle placed from (0,0) to (3,4). -/
theorem circle_radius_euclidean_witness :
    (processEvent placingCircleState
        ⟨InputEvent.mousePressed ⟨3, 4⟩ ⟨3, 4⟩, false⟩).shapes
      = [Shape.circle ⟨0, 0⟩ (circleRadius ⟨0, 0⟩ ⟨3, 4⟩) Color.white] ∧
    circleRadius ⟨0, 0⟩ ⟨3, 4⟩ = dist (toPlane ⟨0, 0⟩) (toPlane ⟨3, 4⟩) ∧
    0 ≤ circleRadius ⟨0, 0⟩ ⟨3, 4⟩ ∧
    circleRadius ⟨0, 0⟩ ⟨3, 4⟩ = 5 :=
  circle_radius_euclidean placingCircleState ⟨3, 4⟩ ⟨3, 4⟩ rfl rfl

/-- A mid-placement state with the Rectangle tool and pending start (10,10). -/
def placingRectState : AppState :=
  { initialState with
    currentShapeType := ShapeType.rectangle
    isDrawing := true
    startPos := ⟨10, 10⟩ }

/-- Claim C9: completing a Rectangle placement appends a rectangle whose
origin is the pending start and whose size is the componentwise difference
endpoint minus start, which may be negative; for start (10,10) and end (5,5)
the size is (-5,-5). -/
theorem rect_commit_geometry (s : AppState) (q r : Vec2)
    (h1 : s.isDrawing = true) (h2 : s.currentShapeType = ShapeType.rectangle) :
    (processEvent s ⟨InputEvent.mousePressed q r, false⟩).shapes
      = s.shapes ++ [Shape.rect s.startPos (q - s.startPos) s.currentColor] ∧
    (q - s.startPos).x = q.x - s.startPos.x ∧
    (q - s.startPos).y = q.y - s.startPos.y ∧
    ((⟨5, 5⟩ : Vec2) - (⟨10, 10⟩ : Vec2)) = (⟨-5, -5⟩ : Vec2) := by
  refine ⟨?_, rfl, rfl, rfl⟩
  rw [processEvent_mouse, handleMousePressed_of_isDrawing _ q r h1]
  show s.shapes ++ (commitShape s.currentShapeType s.startPos q s.currentColor).toList = _
  rw [h2]
  rfl

/-- Concrete run of C9: rectangle placed from (10,10) to (5,5) has origin
(10,10) and size (-5,-5). -/
theorem rect_commit_geometry_witness :
    (processEvent placingRectState
        ⟨InputEvent.mousePressed ⟨5, 5⟩ ⟨5, 5⟩, false⟩).shapes
      = [Shape.rect ⟨10, 10⟩ ⟨-5, -5⟩ Color.white] ∧
    ((⟨5, 5⟩ : Vec2) - (⟨10, 10⟩ : Vec2)).x = -5 ∧
    ((⟨5, 5⟩ : Vec2) - (⟨10, 10⟩ : Vec2)).y = -5 ∧
    ((⟨5, 5⟩ : Vec2) - (⟨10, 10⟩ : Vec2)) = (⟨-5, -5⟩ : Vec2) :=
  rect_commit_geometry placingRectState ⟨5, 5⟩ ⟨5, 5⟩ rfl rfl

/-- Outside the drawing phase the click handler never reads the event's
stored coordinates. -/
theorem handleMousePressed_event_pos_irrelevant (s : AppState) (e e' p : Vec2)
    (h : s.isDrawing = false) :
    handleMousePressed s e p = handleMousePressed s e' p := by
  simp [handleMousePressed, h]

/-- Claim C10: outside Placing, both the button tests and the recorded
pending start use the queried cursor position (the event's stored
coordinates are irrelevant), whereas the click completing a placement uses
the event's stored coordinates (the queried position is irrelevant); hence
when the queried position differs from the event's coordinates the recorded
start — and so the committed shape's start point — differs from the first
click event's position. -/
theorem query_vs_event_position (s : AppState) (e e' mp q r r' : Vec2) (c : Bool) :
    (s.isDrawing = false →
      processEvent s ⟨InputEvent.mousePressed e mp, c⟩
        = processEvent s ⟨InputEvent.mousePressed e' mp, c⟩) ∧
    (s.isDrawing = false → anyButtonHit mp = false →
      s.currentShapeType ≠ ShapeType.none →
      (processEvent s ⟨InputEvent.mousePressed e mp, false⟩).startPos = mp ∧
      (mp ≠ e → (processEvent s ⟨InputEvent.mousePressed e mp, false⟩).startPos ≠ e) ∧
      (processEvent (processEvent s ⟨InputEvent.mousePressed e mp, false⟩)
          ⟨InputEvent.mousePressed q r, false⟩).shapes
        = s.shapes ++ (commitShape s.currentShapeType mp q s.currentColor).toList) ∧
    (s.isDrawing = true →
      processEvent s ⟨InputEvent.mousePressed q r, c⟩
        = processEvent s ⟨InputEvent.mousePressed q r', c⟩ ∧
      (processEvent s ⟨InputEvent.mousePressed q r, false⟩).shapes
        = s.shapes ++ (commitShape s.currentShapeType s.startPos q s.currentColor).toList) := by
  refine ⟨fun h => ?_, fun h1 h2 h3 => ?_, fun h => ⟨?_, ?_⟩⟩
  · simp only [processEvent, handleMousePressed_event_pos_irrelevant s e e' mp h]
  · have e1 : processEvent s ⟨InputEvent.mousePressed e mp, false⟩
        = { s with startPos := mp, isDrawing := true } := by
      rw [processEvent_mouse]
      exact handleMousePressed_start s e mp h1 h2 h3
    refine ⟨by rw [e1], fun hne => by rw [e1]; exact fun hh => hne hh, ?_⟩
    rw [e1, processEvent_mouse, handleMousePressed_of_isDrawing _ q r rfl]
  · simp only [processEvent,
      handleMousePressed_of_isDrawing s q r h, handleMousePressed_of_isDrawing s q r' h]
  · rw [processEvent_mouse, handleMousePressed_of_isDrawing s q r h]

/-- Concrete run of C10: queried position (10,100), event coordinates
(300,300) — the recorded start is (10,100); the completing click's event
coordinates (50,150) become the endpoint though the cursor was queried on
the Undo button at (570,20). -/
theorem query_vs_event_position_witness :
    processEvent { initialState with currentShapeType := ShapeType.line }
        ⟨InputEvent.mousePressed ⟨300, 300⟩ ⟨10, 100⟩, false⟩
      = processEvent { initialState with currentShapeType := ShapeType.line }
        ⟨InputEvent.mousePressed ⟨301, 301⟩ ⟨10, 100⟩, false⟩ ∧
    (processEvent { initialState with currentShapeType := ShapeType.line }
        ⟨InputEvent.mousePressed ⟨300, 300⟩ ⟨10, 100⟩, false⟩).startPos = ⟨10, 100⟩ ∧
    (processEvent { initialState with currentShapeType := ShapeType.line }
        ⟨InputEvent.mousePressed ⟨300, 300⟩ ⟨10, 100⟩, false⟩).startPos ≠ ⟨300, 300⟩ ∧
    (processEvent (processEvent { initialState with currentShapeType := ShapeType.line }
          ⟨InputEvent.mousePressed ⟨300, 300⟩ ⟨10, 100⟩, false⟩)
        ⟨InputEvent.mousePressed ⟨50, 150⟩ ⟨570, 20⟩, false⟩).shapes
      = [Shape.line ⟨10, 100⟩ ⟨50, 150⟩ Color.white] ∧
    processEvent placingLineState
        ⟨InputEvent.mousePressed ⟨50, 150⟩ ⟨570, 20⟩, false⟩
      = processEvent placingLineState
        ⟨InputEvent.mousePressed ⟨50, 150⟩ ⟨20, 20⟩, false⟩ :=
  ⟨(query_vs_event_position { initialState with currentShapeType := ShapeType.line }
      ⟨300, 300⟩ ⟨301, 301⟩ ⟨10, 100⟩ ⟨50, 150⟩ ⟨570, 20⟩ ⟨20, 20⟩ false).1 rfl,
   ((query_vs_event_position { initialState with currentShapeType := ShapeType.line }
      ⟨300, 300⟩ ⟨301, 301⟩ ⟨10, 100⟩ ⟨50, 150⟩ ⟨570, 20⟩ ⟨20, 20⟩ false).2.1 rfl
      (by decide) (by decide)).1,
   ((query_vs_event_position { initialState with currentShapeType := ShapeType.line }
      ⟨300, 300⟩ ⟨301, 301⟩ ⟨10, 100⟩ ⟨50, 150⟩ ⟨570, 20⟩ ⟨20, 20⟩ false).2.1 rfl
      (by decide) (by decide)).2.1 (by decide),
   ((query_vs_event_position { initialState with currentShapeType := ShapeType.line }
      ⟨300, 300⟩ ⟨301, 301⟩ ⟨10, 100⟩ ⟨50, 150⟩ ⟨570, 20⟩ ⟨20, 20⟩ false).2.1 rfl
      (by decide) (by decide)).2.2,
   ((query_vs_event_position placingLineState
      ⟨300, 300⟩ ⟨301, 301⟩ ⟨10, 100⟩ ⟨50, 150⟩ ⟨570, 20⟩ ⟨20, 20⟩ false).2.2 rfl).1⟩

end Drawing
